import Mathlib

/-!
# Verification of the streamlink pipeline core

A shallow embedding of the packet / stage framework of the streamlink
repository (Go), together with proofs about the claims on its
specification.  Each definition is translated from the Go source:

* `Packet`, `PacketCommand`, `GenInterruptPacket` — pipeline/component.go
  (src/unnamed/part_002, lines 15–43);
* `BoundedChan`, `trySend` — the semantics of a buffered Go channel used
  with `select { case ch <- p: default: }` (non-blocking send);
* `BaseState`, `forwardPacket`, `sendPacket`, `processLoopStep` —
  `BaseComponent` (part_002, lines 115–370);
* the per-stage interrupt handlers — opus_encoder.go, part_005
  (WebRTCSink), part_007 (Resampler), llm.go (DeepSeek),
  tencent_tts_flow.go (TencentStreamTTS, TencentTTS2);
* `TurnManager` — part_002, lines 462–724;
* the LLM history operations — llm.go, lines 62–283;
* the resampler buffering — part_007.

Go `int` is modelled as `Int` (the modelled quantities — turn sequence
numbers, sequence numbers, timestamps in milliseconds — stay far below
2^63 in every scenario considered, so two's-complement wrap-around is
never reached and is not modelled).  Wall-clock readings are passed in
explicitly as millisecond timestamps.  Diagnostic-only fields (the
`TurnMetricStat` map, `Src`, log output) are omitted from the packet
model: no claim mentions them.
-/

namespace Streamlink

/-- `PacketCommand` — part_002 lines 26–32: `PacketCommandNone`,
`PacketCommandInterrupt`. -/
inductive PacketCommand where
  | none
  | interrupt
deriving DecidableEq, Repr

/-- The payload variants actually carried by `Packet.Data`
(`interface{}` in Go): PCM samples (`[]int16`), text (`string`), raw
bytes (`[]byte`), an audio frame (`codec.AudioPacket`: opaque payload
plus RTP timestamp), or `nil`. -/
inductive Payload where
  | pcm (samples : List Int)
  | textData (s : List Char)
  | bytesData (bs : List Nat)
  | audio (payload : List Nat) (timestamp : Nat)
  | empty
deriving DecidableEq, Repr

/-- `Packet` — part_002 lines 16–24 (diagnostic metric fields omitted). -/
structure Packet where
  data : Payload := Payload.empty
  seq : Int := 0
  turnSeq : Int := 0
  command : PacketCommand := PacketCommand.none
deriving DecidableEq, Repr

/-- `GenInterruptPacket` — part_002 lines 35–43. -/
def GenInterruptPacket (turnSeq : Int) : Packet :=
  { data := Payload.empty, seq := 0, turnSeq := turnSeq,
    command := PacketCommand.interrupt }

/-- A buffered Go channel of `Packet`s, as seen by a single worker:
the queued packets in FIFO order plus the capacity it was made with. -/
structure BoundedChan where
  buf : List Packet
  cap : Nat
deriving DecidableEq, Repr

/-- Non-blocking send on a buffered channel, the semantics of Go's
`select { case ch <- p: ... default: ... }`: succeeds (appending to the
buffer) exactly when the buffer is below capacity. -/
def trySend (c : BoundedChan) (p : Packet) : BoundedChan × Bool :=
  if c.buf.length < c.cap then ({ c with buf := c.buf ++ [p] }, true)
  else (c, false)

/-- The mutable state of a `BaseComponent` (part_002 lines 115–135)
visible to the claims: `curTurnSeq`, `seq`, `ignoreTurn`, the health
counters `ProcessedCount` and `DroppedCount`, and the outbound channel
(`nil`-able, hence an `Option`).  `name`, timestamps and the remaining
health fields are diagnostic and omitted. -/
structure BaseState where
  curTurnSeq : Int
  seq : Int
  ignoreTurn : Bool
  processedCount : Nat
  droppedCount : Nat
  outChan : Option BoundedChan
deriving DecidableEq, Repr

/-- `BaseComponent.ForwardPacket` — part_002 lines 308–321: if the
outbound channel is `nil` do nothing; otherwise send non-blockingly,
and on a full channel drop the packet and bump the drop counter
(`UpdateDroppedStatus`, lines 365–369). -/
def forwardPacket (b : BaseState) (p : Packet) : BaseState :=
  match b.outChan with
  | Option.none => b
  | Option.some c =>
      match trySend c p with
      | (c2, true) => { b with outChan := Option.some c2 }
      | (_, false) => { b with droppedCount := b.droppedCount + 1 }

/-- `BaseComponent.SendPacket` — part_002 lines 324–340: build a fresh
packet from `b.seq` and `b.curTurnSeq`, send it non-blockingly (drop
and count when full), then `IncrSeq` unconditionally. -/
def sendPacket (b : BaseState) (d : Payload) : BaseState :=
  let b2 :=
    match b.outChan with
    | Option.none => b
    | Option.some c =>
        match trySend c { data := d, seq := b.seq, turnSeq := b.curTurnSeq,
                          command := PacketCommand.none } with
        | (c2, true) => { b with outChan := Option.some c2 }
        | (_, false) => { b with droppedCount := b.droppedCount + 1 }
  { b2 with seq := b2.seq + 1 }

/-- Actions a stage sends to a TTS synthesizer session
(tencent_tts_flow.go): `Complete("ACTION_COMPLETE")`, `Stop()`,
`Process(text, "ACTION_SYNTHESIS")`, `Process("。", "ACTION_RESET")`. -/
inductive SynthAction where
  | complete
  | stopSession
  | synthesis
  | reset
deriving DecidableEq, Repr

/-- The state of one pipeline stage: the embedded `BaseComponent` plus
the stage-specific fields touched by the interrupt handlers under
study.  `dataBuffer` is the Opus encoder's PCM accumulation buffer;
`lastTurnSeq` and `turnStartTs` belong to the WebRTC sink; the `tts*`
fields model `TencentStreamTTS`: the active index, whether each
synthesizer pointer is non-nil, the log of actions sent to the current
primary/backup session, and a construction counter that increases each
time a side is rebuilt from scratch. -/
structure StageState where
  base : BaseState
  dataBuffer : List Int := []
  lastTurnSeq : Int := 0
  turnStartTs : Int := 0
  ttsActiveIdx : Int := 0
  ttsPrimaryPresent : Bool := true
  ttsBackupPresent : Bool := true
  ttsPrimaryActions : List SynthAction := []
  ttsBackupActions : List SynthAction := []
  ttsPrimaryGen : Nat := 0
  ttsBackupGen : Nat := 0
deriving DecidableEq, Repr

/-- One iteration of `BaseComponent.processLoop` (part_002 lines
195–226) for a dequeued packet `p`.  In order: `ProcessedCount++`;
command packets go to the registered handler (silently skipped when no
handler is registered, lines 343–354); otherwise the universal
stale-data filter (line 217) drops the packet and bumps the drop
counter; otherwise the data handler `b.process` runs when set.  The
handler tables are passed in, mirroring `commandHandlers` and
`SetProcess`. -/
def processLoopStep (st : StageState) (p : Packet)
    (commandHandlers : PacketCommand → Option (StageState → Packet → StageState))
    (dataHandler : Option (StageState → Packet → StageState)) : StageState :=
  let st1 : StageState :=
    { st with base.processedCount := st.base.processedCount + 1 }
  if p.command ≠ PacketCommand.none then
    match commandHandlers p.command with
    | Option.some h => h st1 p
    | Option.none => st1
  else if st1.base.ignoreTurn = false ∧ p.turnSeq < st1.base.curTurnSeq then
    { st1 with base.droppedCount := st1.base.droppedCount + 1 }
  else
    match dataHandler with
    | Option.some f => f st1 p
    | Option.none => st1

/-! ## Stop: `close(b.stopCh)` semantics -/

/-- The state of a Go channel with respect to `close`. -/
inductive GoChanState where
  | opened
  | closedCh
deriving DecidableEq, Repr

/-- Go semantics of `close(ch)`: closing an already-closed channel is a
run-time panic ("close of closed channel", Go language specification).
The panic is modelled as `Except.error`. -/
def goChanClose : GoChanState → Except String GoChanState
  | GoChanState.opened => Except.ok GoChanState.closedCh
  | GoChanState.closedCh => Except.error "panic: close of closed channel"

/-- `BaseComponent.Stop` — part_002 lines 170–172: the body is exactly
`close(b.stopCh)`, with no guard of any kind. -/
def baseComponentStop (stopCh : GoChanState) : Except String GoChanState :=
  goChanClose stopCh

/-! ## Interrupt handlers, as statement sequences

Each stage's `handleInterrupt` body is a short straight-line sequence
of statements; it is embedded as a list of `HStmt` (one per Go
statement, in source order) interpreted by `execHStmt`, so that both
the effect of a handler and the order of its statements are
available to the theorems. -/

/-- One statement of an interrupt handler body. -/
inductive HStmt where
  /-- `x.SetCurTurnSeq(packet.TurnSeq)` -/
  | setCurTurnSeqFromPacket
  /-- `x.IncrTurnSeq()` — `curTurnSeq++` (Opus decoder, ASR adapter) -/
  | incrTurnSeq
  /-- `x.ForwardPacket(packet)` — forwards the incoming interrupt -/
  | forwardIncoming
  /-- `e.dataBuffer = e.dataBuffer[:0]` (Opus encoder) -/
  | clearDataBuffer
  /-- `s.lastTurnSeq = -1` (WebRTC sink) -/
  | resetLastTurnSeq
  /-- `s.SetTurnStartTs(time.Now().UnixMilli())` (WebRTC sink) -/
  | recordTurnStartTs
  /-- the locked synthesizer section of `TencentStreamTTS.handleInterrupt`
  (tencent_tts_flow.go lines 152–228) -/
  | ttsSwapSection
deriving DecidableEq, Repr

/-- The locked section of `TencentStreamTTS.handleInterrupt`
(tencent_tts_flow.go lines 152–228): when `activeSynthesizerIdx = -1`
(first-ever interrupt) set it to `0` and return; otherwise send
`COMPLETE` then `Stop` to the active synthesizer (when non-nil), flip
the index, and reconstruct the formerly active side (a fresh session
object: its action log restarts empty and its construction counter
increases; the asynchronous `Start`/`WaitReady` of the new session is
outside this state). -/
def ttsSwapSection (st : StageState) : StageState :=
  if st.ttsActiveIdx = -1 then { st with ttsActiveIdx := 0 }
  else if st.ttsActiveIdx = 1 then
    let st1 :=
      if st.ttsBackupPresent then
        { st with ttsBackupActions :=
            st.ttsBackupActions ++ [SynthAction.complete, SynthAction.stopSession] }
      else st
    { st1 with ttsActiveIdx := 0, ttsBackupPresent := true,
               ttsBackupGen := st1.ttsBackupGen + 1, ttsBackupActions := [] }
  else
    let st1 :=
      if st.ttsPrimaryPresent then
        { st with ttsPrimaryActions :=
            st.ttsPrimaryActions ++ [SynthAction.complete, SynthAction.stopSession] }
      else st
    { st1 with ttsActiveIdx := 1 - st.ttsActiveIdx, ttsPrimaryPresent := true,
               ttsPrimaryGen := st1.ttsPrimaryGen + 1, ttsPrimaryActions := [] }

/-- Interpret one handler statement.  `now` is the wall clock in
milliseconds at the time the handler runs; `p` is the interrupt packet
being handled. -/
def execHStmt (now : Int) (p : Packet) (st : StageState) : HStmt → StageState
  | HStmt.setCurTurnSeqFromPacket => { st with base.curTurnSeq := p.turnSeq }
  | HStmt.incrTurnSeq => { st with base.curTurnSeq := st.base.curTurnSeq + 1 }
  | HStmt.forwardIncoming => { st with base := forwardPacket st.base p }
  | HStmt.clearDataBuffer => { st with dataBuffer := [] }
  | HStmt.resetLastTurnSeq => { st with lastTurnSeq := -1 }
  | HStmt.recordTurnStartTs => { st with turnStartTs := now }
  | HStmt.ttsSwapSection => ttsSwapSection st

/-- Run a handler body. -/
def runHandler (prog : List HStmt) (now : Int) (st : StageState) (p : Packet) :
    StageState :=
  prog.foldl (execHStmt now p) st

/-- `OpusEncoder.handleInterrupt` — opus_encoder.go lines 53–60:
`SetCurTurnSeq(packet.TurnSeq)`, `ForwardPacket(packet)`, clear the
PCM buffer (in that order: the buffer is cleared after forwarding). -/
def opusEncoderInterruptBody : List HStmt :=
  [HStmt.setCurTurnSeqFromPacket, HStmt.forwardIncoming, HStmt.clearDataBuffer]

/-- `WebRTCSink.handleInterrupt` — part_005 lines 37–44:
`SetCurTurnSeq(packet.TurnSeq)`, `lastTurnSeq = -1`,
`SetTurnStartTs(now)`.  It contains no `ForwardPacket` call. -/
def webrtcSinkInterruptBody : List HStmt :=
  [HStmt.setCurTurnSeqFromPacket, HStmt.resetLastTurnSeq, HStmt.recordTurnStartTs]

/-- `Resampler.handleInterrupt` — part_007 lines 70–75. -/
def resamplerInterruptBody : List HStmt :=
  [HStmt.setCurTurnSeqFromPacket, HStmt.forwardIncoming]

/-- `DeepSeek.handleInterrupt` — llm.go lines 100–105. -/
def deepSeekInterruptBody : List HStmt :=
  [HStmt.setCurTurnSeqFromPacket, HStmt.forwardIncoming]

/-- `TencentTTS2.handleInterrupt` — tencent_tts_flow.go lines 686–691. -/
def tencentTTS2InterruptBody : List HStmt :=
  [HStmt.setCurTurnSeqFromPacket, HStmt.forwardIncoming]

/-- `TencentStreamTTS.handleInterrupt` — tencent_tts_flow.go lines
146–229: `SetCurTurnSeq(packet.TurnSeq)`, `ForwardPacket(packet)`,
then the locked synthesizer section. -/
def tencentStreamTTSInterruptBody : List HStmt :=
  [HStmt.setCurTurnSeqFromPacket, HStmt.forwardIncoming, HStmt.ttsSwapSection]

/-- `OpusDecoder.handleInterrupt` — audio_packet.go lines 73–78:
`IncrTurnSeq()`, `ForwardPacket(packet)`. -/
def opusDecoderInterruptBody : List HStmt :=
  [HStmt.incrTurnSeq, HStmt.forwardIncoming]

/-- `TencentAsr.handleInterrupt` — tencent_asr.go lines 50–55:
`IncrTurnSeq()`, `ForwardPacket(packet)`. -/
def tencentAsrInterruptBody : List HStmt :=
  [HStmt.incrTurnSeq, HStmt.forwardIncoming]

/-- `TencentTTS.handleInterrupt` — tencent_tts.go lines 47–52:
`SetCurTurnSeq(packet.TurnSeq)`, `ForwardPacket(packet)`. -/
def tencentTTSInterruptBody : List HStmt :=
  [HStmt.setCurTurnSeqFromPacket, HStmt.forwardIncoming]

/-- `OggDumper.handleInterrupt` — part_003 lines 48–55:
`SetCurTurnSeq(packet.TurnSeq)`, `ForwardPacket(packet)`. -/
def oggDumperInterruptBody : List HStmt :=
  [HStmt.setCurTurnSeqFromPacket, HStmt.forwardIncoming]

/-- `PCMDumper.handleInterrupt` — pcm_dumper.go lines 50–55:
`SetCurTurnSeq(packet.TurnSeq)`, `ForwardPacket(packet)`. -/
def pcmDumperInterruptBody : List HStmt :=
  [HStmt.setCurTurnSeqFromPacket, HStmt.forwardIncoming]

/-- The interrupt-handler bodies that set `cur_turn_seq` from the
packet and forward the incoming interrupt: Opus encoder, Resampler
(part_006 and part_007 carry the same body), DeepSeek, TencentTTS,
TencentTTS2, OggDumper, PCMDumper, TencentStreamTTS. -/
def setForwardInterruptBodies : List (List HStmt) :=
  [opusEncoderInterruptBody, resamplerInterruptBody, deepSeekInterruptBody,
   tencentTTSInterruptBody, tencentTTS2InterruptBody, oggDumperInterruptBody,
   pcmDumperInterruptBody, tencentStreamTTSInterruptBody]

/-- The interrupt-handler bodies that increment `cur_turn_seq` by one
(rather than assigning the packet's sequence) and forward the incoming
interrupt: Opus decoder and the Tencent ASR adapter. -/
def incrForwardInterruptBodies : List (List HStmt) :=
  [opusDecoderInterruptBody, tencentAsrInterruptBody]

/-! ## C1 — universal stale-data filter -/

/-- C1.  Universal stale-data filter: for every stage whose
`ignore_turn` flag is false, when the worker loop dequeues a data
packet (`command = NONE`) with `turn_seq` strictly below the stage's
`cur_turn_seq`, the packet is dropped, the drop counter is incremented
by one, and the stage's data handler is not invoked (the outcome is the
same for every data handler `f`, and nothing but the two counters
changes). -/
theorem staleDataFilter_drops (st : StageState) (p : Packet)
    (commandHandlers : PacketCommand → Option (StageState → Packet → StageState))
    (f : StageState → Packet → StageState)
    (hig : st.base.ignoreTurn = false)
    (hcmd : p.command = PacketCommand.none)
    (hstale : p.turnSeq < st.base.curTurnSeq) :
    processLoopStep st p commandHandlers (Option.some f) =
      { st with base.processedCount := st.base.processedCount + 1,
                base.droppedCount := st.base.droppedCount + 1 } := by
  simp [processLoopStep, hcmd, hig, hstale]

/-- Witness for C1 at a concrete stage state (`cur_turn_seq = 5`,
empty outbound queue of capacity 8) and a stale data packet with
`turn_seq = 3`: the data handler used bumps `seq` so its invocation
would be visible, yet the result only bumps the two counters. -/
theorem staleDataFilter_drops_witness :
    processLoopStep
      { base := { curTurnSeq := 5, seq := 0, ignoreTurn := false,
                  processedCount := 0, droppedCount := 0,
                  outChan := Option.some { buf := [], cap := 8 } } }
      { data := Payload.textData ['a'], seq := 0, turnSeq := 3,
        command := PacketCommand.none }
      (fun _ => Option.none)
      (Option.some (fun s _ => { s with base.seq := s.base.seq + 99 })) =
      { base := { curTurnSeq := 5, seq := 0, ignoreTurn := false,
                  processedCount := 1, droppedCount := 1,
                  outChan := Option.some { buf := [], cap := 8 } } } := by
  exact staleDataFilter_drops _ _ _ _ rfl rfl (by decide)

/-! ## C7 — non-blocking enqueue -/

/-- C7.  Non-blocking enqueue: when the outbound queue is full,
`ForwardPacket` (forwarded packets) and `SendPacket` (newly created
packets) both leave the queue unchanged and increment the drop counter
(by construction they are total functions: the worker is never
suspended; the Go source uses `select`/`default`).  `SendPacket`
additionally increments `seq` as it always does. -/
theorem enqueueFull_drops (b : BaseState) (p : Packet) (d : Payload)
    (c : BoundedChan)
    (hch : b.outChan = Option.some c)
    (hfull : c.cap ≤ c.buf.length) :
    forwardPacket b p = { b with droppedCount := b.droppedCount + 1 } ∧
    sendPacket b d = { b with droppedCount := b.droppedCount + 1,
                              seq := b.seq + 1 } := by
  constructor
  · simp [forwardPacket, hch, trySend, Nat.not_lt.mpr hfull]
  · simp [sendPacket, hch, trySend, Nat.not_lt.mpr hfull]

/-- Witness for C7: a concrete stage whose outbound queue (capacity 1)
already holds one packet; forwarding and sending each drop and count. -/
theorem enqueueFull_drops_witness :
    forwardPacket
      { curTurnSeq := 0, seq := 7, ignoreTurn := false, processedCount := 0,
        droppedCount := 2,
        outChan := Option.some { buf := [GenInterruptPacket 1], cap := 1 } }
      (GenInterruptPacket 2) =
      { curTurnSeq := 0, seq := 7, ignoreTurn := false, processedCount := 0,
        droppedCount := 3,
        outChan := Option.some { buf := [GenInterruptPacket 1], cap := 1 } } ∧
    sendPacket
      { curTurnSeq := 0, seq := 7, ignoreTurn := false, processedCount := 0,
        droppedCount := 2,
        outChan := Option.some { buf := [GenInterruptPacket 1], cap := 1 } }
      (Payload.pcm [1, 2]) =
      { curTurnSeq := 0, seq := 8, ignoreTurn := false, processedCount := 0,
        droppedCount := 3,
        outChan := Option.some { buf := [GenInterruptPacket 1], cap := 1 } } := by
  exact enqueueFull_drops _ _ _ _ rfl (by decide)

/-! ## C3 — interrupt forwarding -/

/-- `forwardPacket` never changes `curTurnSeq` (it only touches the
outbound channel and the drop counter). -/
theorem forwardPacket_curTurnSeq (b : BaseState) (q : Packet) :
    (forwardPacket b q).curTurnSeq = b.curTurnSeq := by
  unfold forwardPacket
  split
  · rfl
  · split <;> rfl

/-- `ttsSwapSection` only touches the synthesizer bookkeeping fields:
the embedded `BaseComponent` state is unchanged. -/
theorem ttsSwapSection_base (st : StageState) :
    (ttsSwapSection st).base = st.base := by
  unfold ttsSwapSection
  split
  · rfl
  · split <;> (split <;> rfl)

/-- Counterexample to C3: the WebRTC sink's interrupt handler contains
no `ForwardPacket` call.  At a concrete sink state whose outbound queue
is empty with spare capacity 8, handling `INTERRUPT(3)` applies the
local effect (`cur_turn_seq := 3`, first-packet marker and turn start
reset) but enqueues nothing on the outbound queue — zero `INTERRUPT`
packets, not exactly one. -/
theorem webrtcSinkInterrupt_forwardsNothing :
    runHandler webrtcSinkInterruptBody 1000
      { base := { curTurnSeq := 5, seq := 0, ignoreTurn := false,
                  processedCount := 0, droppedCount := 0,
                  outChan := Option.some { buf := [], cap := 8 } },
        lastTurnSeq := 5, turnStartTs := 200 }
      (GenInterruptPacket 3) =
      { base := { curTurnSeq := 3, seq := 0, ignoreTurn := false,
                  processedCount := 0, droppedCount := 0,
                  outChan := Option.some { buf := [], cap := 8 } },
        lastTurnSeq := -1, turnStartTs := 1000 } := by
  rfl

/-! ## C6 — TTS first-ever interrupt -/

/-- C6.  When `TencentStreamTTS` has `active_idx = -1` and handles
`INTERRUPT(T)`: `cur_turn_seq` becomes `T`, the interrupt is forwarded
(exactly one packet, the interrupt itself, is enqueued outbound), and
`active_idx` becomes `0`; nothing else changes — in particular no
`COMPLETE`, no `stop()` is sent to either synthesizer (both action
logs unchanged) and neither synthesizer is reconstructed (both
construction counters and presence flags unchanged). -/
theorem ttsFirstInterrupt_noTeardown (st : StageState) (p : Packet) (now : Int)
    (c : BoundedChan)
    (_hcmd : p.command = PacketCommand.interrupt)
    (hidx : st.ttsActiveIdx = -1)
    (hch : st.base.outChan = Option.some c)
    (hspace : c.buf.length < c.cap) :
    runHandler tencentStreamTTSInterruptBody now st p =
      { st with
          base.curTurnSeq := p.turnSeq,
          base.outChan := Option.some { c with buf := c.buf ++ [p] },
          ttsActiveIdx := 0 } := by
  simp [runHandler, tencentStreamTTSInterruptBody, execHStmt, forwardPacket,
    hch, trySend, hspace, ttsSwapSection, hidx]

/-- Witness for C6: a concrete adapter state with `active_idx = -1`,
non-empty action history on the primary session and construction
counters at 1, handling `INTERRUPT(4)`. -/
theorem ttsFirstInterrupt_noTeardown_witness :
    runHandler tencentStreamTTSInterruptBody 0
      { base := { curTurnSeq := 0, seq := 0, ignoreTurn := false,
                  processedCount := 0, droppedCount := 0,
                  outChan := Option.some { buf := [], cap := 4 } },
        ttsActiveIdx := -1,
        ttsPrimaryActions := [SynthAction.reset],
        ttsPrimaryGen := 1, ttsBackupGen := 1 }
      (GenInterruptPacket 4) =
      { base := { curTurnSeq := 4, seq := 0, ignoreTurn := false,
                  processedCount := 0, droppedCount := 0,
                  outChan := Option.some { buf := [GenInterruptPacket 4], cap := 4 } },
        ttsActiveIdx := 0,
        ttsPrimaryActions := [SynthAction.reset],
        ttsPrimaryGen := 1, ttsBackupGen := 1 } := by
  exact ttsFirstInterrupt_noTeardown
    { base := { curTurnSeq := 0, seq := 0, ignoreTurn := false,
                processedCount := 0, droppedCount := 0,
                outChan := Option.some { buf := [], cap := 4 } },
      ttsActiveIdx := -1,
      ttsPrimaryActions := [SynthAction.reset],
      ttsPrimaryGen := 1, ttsBackupGen := 1 }
    (GenInterruptPacket 4) 0 { buf := [], cap := 4 } rfl rfl rfl (by decide)

/-! ## C10 — command packets bypass the stale-data filter -/

/-- C10.  A dequeued packet whose command is not `NONE` is dispatched
to the registered command handler regardless of its `turn_seq` (no
`turn_seq` hypothesis appears): with a handler registered the step is
exactly the handler's effect (never the stale drop, and the data
handler `f` is not invoked); with none registered the packet is
silently discarded.  Consequently, a stage whose interrupt handler
assigns `cur_turn_seq` from the packet — the Resampler — ends with
`cur_turn_seq = p.turnSeq` even when that is lower than before. -/
theorem commandBypassesStaleFilter (st : StageState) (p : Packet)
    (commandHandlers : PacketCommand → Option (StageState → Packet → StageState))
    (h : StageState → Packet → StageState)
    (f : StageState → Packet → StageState)
    (hcmd : p.command = PacketCommand.interrupt) :
    (commandHandlers PacketCommand.interrupt = Option.some h →
       processLoopStep st p commandHandlers (Option.some f) =
         h { st with base.processedCount := st.base.processedCount + 1 } p) ∧
    (commandHandlers PacketCommand.interrupt = Option.none →
       processLoopStep st p commandHandlers (Option.some f) =
         { st with base.processedCount := st.base.processedCount + 1 }) ∧
    (processLoopStep st p
        (fun cmd => if cmd = PacketCommand.interrupt
                    then Option.some (fun s q => runHandler resamplerInterruptBody 0 s q)
                    else Option.none)
        (Option.some f)).base.curTurnSeq = p.turnSeq := by
  refine ⟨?_, ?_, ?_⟩
  · intro hreg
    simp [processLoopStep, hcmd, hreg]
  · intro hreg
    simp [processLoopStep, hcmd, hreg]
  · simp [processLoopStep, hcmd, runHandler, resamplerInterruptBody, execHStmt,
      forwardPacket_curTurnSeq]

/-- Witness for C10 at concrete inputs: a Resampler-style stage with
`cur_turn_seq = 5` receives `INTERRUPT(3)`; the handler runs (the
interrupt is forwarded, stale filter skipped), and `cur_turn_seq`
moves backwards to `3 < 5`. -/
theorem commandBypassesStaleFilter_witness :
    (processLoopStep
        { base := { curTurnSeq := 5, seq := 0, ignoreTurn := false,
                    processedCount := 0, droppedCount := 0,
                    outChan := Option.some { buf := [], cap := 8 } } }
        (GenInterruptPacket 3)
        (fun cmd => if cmd = PacketCommand.interrupt
                    then Option.some (fun s q => runHandler resamplerInterruptBody 0 s q)
                    else Option.none)
        (Option.some (fun s _ => s))).base.curTurnSeq = 3 ∧
    (3 : Int) < 5 := by
  refine ⟨?_, by decide⟩
  exact (commandBypassesStaleFilter
    { base := { curTurnSeq := 5, seq := 0, ignoreTurn := false,
                processedCount := 0, droppedCount := 0,
                outChan := Option.some { buf := [], cap := 8 } } }
    (GenInterruptPacket 3)
    (fun cmd => if cmd = PacketCommand.interrupt
                then Option.some (fun s q => runHandler resamplerInterruptBody 0 s q)
                else Option.none)
    (fun s _ => s) (fun s _ => s) rfl).2.2

/-! ## C4 — stop idempotence (refuted: double close panics) -/

/-- C4.  `BaseComponent.Stop` is `close(b.stopCh)` with no closed-flag
or lock; by Go channel semantics the second call panics.  This
evaluates the code at the failing input: `Stop` on a freshly started
stage succeeds, and `Stop` again on the result is the "close of closed
channel" run-time panic — so `stop()` is not idempotent and the second
call does panic, contradicting the claim. -/
theorem stopTwice_panics :
    baseComponentStop GoChanState.opened = Except.ok GoChanState.closedCh ∧
    (baseComponentStop GoChanState.opened).bind baseComponentStop =
      Except.error "panic: close of closed channel" := by
  exact ⟨rfl, rfl⟩

/-! ## Turn manager (part_002, lines 462–724) -/

/-- `TurnState` — part_002 lines 481–488. -/
inductive TurnState where
  | active
  | pending
  | complete
  | interrupted
deriving DecidableEq, Repr

/-- `TurnInfo` — part_002 lines 491–498 (`Text` and `InterruptType`
are diagnostic and never read; times in ms). -/
structure TurnInfo where
  turnSeq : Int
  startTime : Int
  lastUpdateTime : Int
  state : TurnState
deriving DecidableEq, Repr

/-- `TurnManagerConfig` — part_002 lines 501–506.  Durations in
milliseconds.  Each configured punctuation mark is a single character
(`。？！.?!`), so Go's `strings.Contains(buffer, mark)` is character
membership. -/
structure TurnManagerConfig where
  silenceTimeout : Int
  maxTurnDuration : Int
  minSentenceLength : Nat
  punctuationMarks : List Char
deriving DecidableEq, Repr

/-- `DefaultTurnManagerConfig` — part_002 lines 509–516: 2 s silence
timeout, 30 s max turn duration, marks `。？！.?!`. -/
def DefaultTurnManagerConfig : TurnManagerConfig :=
  { silenceTimeout := 2000, maxTurnDuration := 30000, minSentenceLength := 4,
    punctuationMarks := ['。', '？', '！', '.', '?', '!'] }

/-- `TurnManager` state — part_002 lines 519–527 (metrics omitted). -/
structure TMState where
  base : BaseState
  currentTurn : Option TurnInfo := Option.none
  previousTurn : Option TurnInfo := Option.none
  config : TurnManagerConfig := DefaultTurnManagerConfig
  sentenceBuffer : List Char := []
  lastUpdateTime : Int := 0
deriving DecidableEq, Repr

/-- `TurnManager.shouldCreateNewTurn` — part_002 lines 600–619: a
closing punctuation mark is in the buffer, or the time since
`lastUpdateTime` exceeds `SilenceTimeout`, or a current turn exists and
has outlived `MaxTurnDuration`.  `now` is the wall clock at the check
(`time.Since(x) = now - x`). -/
def shouldCreateNewTurn (tm : TMState) (now : Int) : Bool :=
  tm.config.punctuationMarks.any (fun m => decide (m ∈ tm.sentenceBuffer)) ||
  decide (now - tm.lastUpdateTime > tm.config.silenceTimeout) ||
  (match tm.currentTurn with
   | Option.some t => decide (now - t.startTime > tm.config.maxTurnDuration)
   | Option.none => false)

/-- `TurnManager.createNewTurn` — part_002 lines 644–662: archive the
current turn (marked `Complete`) as previous when it exists, install a
fresh `Active` turn, clear the sentence buffer. -/
def createNewTurn (tm : TMState) (turnSeq : Int) (now : Int) : TMState :=
  let prev :=
    match tm.currentTurn with
    | Option.some t => Option.some { t with state := TurnState.complete }
    | Option.none => tm.previousTurn
  { tm with
      previousTurn := prev,
      currentTurn := Option.some
        { turnSeq := turnSeq, startTime := now, lastUpdateTime := now,
          state := TurnState.active },
      sentenceBuffer := [] }

/-- `TurnManager.handleASRResult` — part_002 lines 556–598.  In source
order: `lastUpdateTime = time.Now()` (before anything else), append
`text` to the sentence buffer, and if `shouldCreateNewTurn()` then
`IncrTurnSeq`, broadcast the semantic interrupt unless `ignoreTurn`
(`broadcastInterrupt`, lines 664–671, forwards
`Packet{Command: Interrupt, TurnSeq: new}` — exactly
`GenInterruptPacket`), forward the accumulated sentence when non-empty
as a data packet with the new turn sequence, then `createNewTurn`.
All `time.Now()` readings of one handler run are the single instant
`now` (they are microseconds apart while the configured durations are
seconds).  Metric-map bookkeeping is omitted (diagnostic only). -/
def handleASRResult (tm : TMState) (text : List Char) (now : Int) : TMState :=
  let tm1 := { tm with lastUpdateTime := now }
  let tm2 := { tm1 with sentenceBuffer := tm1.sentenceBuffer ++ text }
  if shouldCreateNewTurn tm2 now then
    let tm3 := { tm2 with base.curTurnSeq := tm2.base.curTurnSeq + 1 }
    let tm4 :=
      if tm3.base.ignoreTurn then tm3
      else { tm3 with base :=
               forwardPacket tm3.base (GenInterruptPacket tm3.base.curTurnSeq) }
    let tm5 :=
      if tm4.sentenceBuffer = [] then tm4
      else
        let sentencePkt : Packet :=
          { data := Payload.textData tm4.sentenceBuffer, seq := tm4.base.seq,
            turnSeq := tm4.base.curTurnSeq, command := PacketCommand.none }
        { tm4 with base := forwardPacket tm4.base sentencePkt }
    createNewTurn tm5 tm5.base.curTurnSeq now
  else tm2

/-- `TurnManager.handleCommandInterrupt` — part_002 lines 621–642, the
turn manager's registered handler for external (command) interrupts.
It ignores the incoming packet's fields entirely: `IncrTurnSeq()`, then
`broadcastInterrupt(GetCurTurnSeq(), Command)` — a *fresh*
`INTERRUPT` carrying the manager's own new sequence — then
`time.Sleep(20ms)` (a pure delay, no state effect), then, when the
sentence buffer is non-empty, forward it as the first data packet of
the new turn (`Seq: 0`), and finally `createNewTurn`. -/
def handleCommandInterrupt (tm : TMState) (now : Int) : TMState :=
  let tm1 := { tm with base.curTurnSeq := tm.base.curTurnSeq + 1 }
  let tm2 := { tm1 with base :=
                 forwardPacket tm1.base (GenInterruptPacket tm1.base.curTurnSeq) }
  let tm3 :=
    if tm2.sentenceBuffer = [] then tm2
    else
      let firstPkt : Packet :=
        { data := Payload.textData tm2.sentenceBuffer, seq := 0,
          turnSeq := tm2.base.curTurnSeq, command := PacketCommand.none }
      { tm2 with base := forwardPacket tm2.base firstPkt }
  createNewTurn tm3 tm3.base.curTurnSeq now

/-! ## C2 — semantic turn boundary protocol -/

/-- C2.  When a string payload makes a closing punctuation mark present
in the sentence buffer, the turn manager increments `turn_seq` exactly
once; with `ignore_turn` unset, an `INTERRUPT` carrying the new
`turn_seq` is enqueued on the outbound queue immediately before the
data packet carrying the accumulated sentence, which carries the same
new `turn_seq`; with `ignore_turn` set, only the data packet is
enqueued — no `INTERRUPT` (given room on the outbound queue). -/
theorem semanticTurnBoundary (tm : TMState) (text : List Char) (now : Int)
    (c : BoundedChan)
    (hpunct : ∃ m ∈ tm.config.punctuationMarks, m ∈ tm.sentenceBuffer ++ text)
    (hch : tm.base.outChan = Option.some c)
    (hspace : c.buf.length + 2 ≤ c.cap) :
    (handleASRResult tm text now).base.curTurnSeq = tm.base.curTurnSeq + 1 ∧
    (tm.base.ignoreTurn = false →
       (handleASRResult tm text now).base.outChan =
         Option.some { c with buf := c.buf ++
           [GenInterruptPacket (tm.base.curTurnSeq + 1),
            { data := Payload.textData (tm.sentenceBuffer ++ text),
              seq := tm.base.seq, turnSeq := tm.base.curTurnSeq + 1,
              command := PacketCommand.none }] }) ∧
    (tm.base.ignoreTurn = true →
       (handleASRResult tm text now).base.outChan =
         Option.some { c with buf := c.buf ++
           [{ data := Payload.textData (tm.sentenceBuffer ++ text),
              seq := tm.base.seq, turnSeq := tm.base.curTurnSeq + 1,
              command := PacketCommand.none }] }) := by
  obtain ⟨m, hm, hmem⟩ := hpunct
  have hclose : shouldCreateNewTurn
      { tm with lastUpdateTime := now,
                sentenceBuffer := tm.sentenceBuffer ++ text } now = true := by
    simp only [shouldCreateNewTurn, Bool.or_eq_true, List.any_eq_true,
      decide_eq_true_eq]
    exact Or.inl (Or.inl ⟨m, hm, hmem⟩)
  have hne : tm.sentenceBuffer ++ text ≠ [] := List.ne_nil_of_mem hmem
  have hlt1 : c.buf.length < c.cap := by omega
  have hlt2 : c.buf.length + 1 < c.cap := by omega
  cases hig : tm.base.ignoreTurn with
  | false =>
      refine ⟨?_, fun _ => ?_, fun h => by simp [hig] at h⟩ <;>
        simp [handleASRResult, hclose, hig, hne, createNewTurn, forwardPacket,
          hch, trySend, hlt1, hlt2]
  | true =>
      refine ⟨?_, fun h => by simp [hig] at h, fun _ => ?_⟩ <;>
        simp [handleASRResult, hclose, hig, hne, createNewTurn, forwardPacket,
          hch, trySend, hlt1]

/-- Witness for C2 at concrete input: buffer `"你好"` already held,
incoming text `"世界。"` (containing the mark `。`), `cur_turn_seq = 0`,
empty outbound queue of capacity 4, `ignore_turn = false`. -/
theorem semanticTurnBoundary_witness :
    (handleASRResult
      { base := { curTurnSeq := 0, seq := 3, ignoreTurn := false,
                  processedCount := 0, droppedCount := 0,
                  outChan := Option.some { buf := [], cap := 4 } },
        sentenceBuffer := ['你', '好'], lastUpdateTime := 100 }
      ['世', '界', '。'] 200).base.curTurnSeq = 1 ∧
    (false = false →
      (handleASRResult
        { base := { curTurnSeq := 0, seq := 3, ignoreTurn := false,
                    processedCount := 0, droppedCount := 0,
                    outChan := Option.some { buf := [], cap := 4 } },
          sentenceBuffer := ['你', '好'], lastUpdateTime := 100 }
        ['世', '界', '。'] 200).base.outChan =
        Option.some (BoundedChan.mk
          [GenInterruptPacket 1,
           Packet.mk (Payload.textData ['你', '好', '世', '界', '。'])
             3 1 PacketCommand.none]
          4)) := by
  have h := semanticTurnBoundary
    { base := { curTurnSeq := 0, seq := 3, ignoreTurn := false,
                processedCount := 0, droppedCount := 0,
                outChan := Option.some { buf := [], cap := 4 } },
      sentenceBuffer := ['你', '好'], lastUpdateTime := 100 }
    ['世', '界', '。'] 200 { buf := [], cap := 4 }
    ⟨'。', by decide, by decide⟩ rfl (by decide)
  exact ⟨h.1, h.2.1⟩

/-! ## C5 — silence-timeout turn closure (refuted: the clause is dead) -/

/-- C5.  `handleASRResult` assigns `lastUpdateTime = time.Now()`
*before* calling `shouldCreateNewTurn`, so the silence check compares
the clock with itself: whenever the incoming text brings no closing
punctuation and the max-turn-duration clause does not fire, the turn is
*not* closed — with no hypothesis at all on how long ago the previous
update happened.  The silence-timeout clause of
`shouldCreateNewTurn` is unreachable from the worker loop, and the
claimed behaviour (close on the next input after more than
`silence_timeout` of silence) does not occur: nothing is emitted,
`cur_turn_seq` is unchanged, only the buffer and timestamp move. -/
theorem silenceTimeoutClauseDead (tm : TMState) (text : List Char) (now : Int)
    (hpunct : ∀ m ∈ tm.config.punctuationMarks, m ∉ tm.sentenceBuffer ++ text)
    (hto : 0 ≤ tm.config.silenceTimeout)
    (hdur : ∀ t, tm.currentTurn = Option.some t →
       now - t.startTime ≤ tm.config.maxTurnDuration) :
    handleASRResult tm text now =
      { tm with lastUpdateTime := now,
                sentenceBuffer := tm.sentenceBuffer ++ text } := by
  have hclose : shouldCreateNewTurn
      { tm with lastUpdateTime := now,
                sentenceBuffer := tm.sentenceBuffer ++ text } now = false := by
    simp only [shouldCreateNewTurn, Bool.or_eq_false_iff, List.any_eq_false,
      decide_eq_true_eq]
    refine ⟨⟨fun m hm => ?_, by simp; omega⟩, ?_⟩
    · simpa using hpunct m hm
    · cases ht : tm.currentTurn with
      | none => simp
      | some t => simpa using hdur t ht
  simp [handleASRResult, hclose]

/-- Witness for C5, exhibiting the failing input of the claim: default
configuration (`silence_timeout = 2000 ms`), last ASR update at time
0, next string payload `"你好"` (no closing punctuation) at time 5000 —
a 5 s silence, exceeding the timeout — and yet the handler leaves
`cur_turn_seq` untouched and emits nothing. -/
theorem silenceTimeoutClauseDead_witness :
    ((5000 : Int) - 0 > DefaultTurnManagerConfig.silenceTimeout) ∧
    handleASRResult
      { base := { curTurnSeq := 3, seq := 0, ignoreTurn := false,
                  processedCount := 0, droppedCount := 0,
                  outChan := Option.some { buf := [], cap := 8 } },
        sentenceBuffer := [], lastUpdateTime := 0 }
      ['你', '好'] 5000 =
      { base := { curTurnSeq := 3, seq := 0, ignoreTurn := false,
                  processedCount := 0, droppedCount := 0,
                  outChan := Option.some { buf := [], cap := 8 } },
        sentenceBuffer := ['你', '好'], lastUpdateTime := 5000 } := by
  refine ⟨by decide, ?_⟩
  exact silenceTimeoutClauseDead
    { base := { curTurnSeq := 3, seq := 0, ignoreTurn := false,
                processedCount := 0, droppedCount := 0,
                outChan := Option.some { buf := [], cap := 8 } },
      sentenceBuffer := [], lastUpdateTime := 0 }
    ['你', '好'] 5000 (by decide) (by decide) (by simp)

/-! ## C3 (amended) — interrupt forwarding across all stages -/

/-- A concrete stage state for the C3 witness: `cur_turn_seq = 2`,
empty outbound queue of capacity 4. -/
def sampleInterruptStage : StageState :=
  { base := { curTurnSeq := 2, seq := 1, ignoreTurn := false,
              processedCount := 0, droppedCount := 0,
              outChan := Option.some { buf := [], cap := 4 } } }

/-- A concrete turn-manager state for the C3 witness: `cur_turn_seq =
2`, pending sentence buffer `"你"`, empty outbound queue of capacity 4. -/
def sampleTurnManager : TMState :=
  { base := { curTurnSeq := 2, seq := 9, ignoreTurn := false,
              processedCount := 0, droppedCount := 0,
              outChan := Option.some { buf := [], cap := 4 } },
    sentenceBuffer := ['你'] }

/-- C3, amended.  For every stage that registers an interrupt handler,
handling an incoming `INTERRUPT(T)` enqueues exactly one `INTERRUPT`
on the stage's outbound queue (given spare capacity), *except the
terminal WebRTC sink, which enqueues none*; and the stage's
`cur_turn_seq` effect is applied before the forward, though it is not
uniformly an assignment of `T`:

* Opus encoder, Resampler, DeepSeek, TencentTTS, TencentTTS2,
  OggDumper, PCMDumper, TencentStreamTTS set `cur_turn_seq := T` and
  forward the incoming packet itself, the assignment being the only
  statement before the forward (the Opus encoder clears its per-turn
  buffer only after forwarding);
* Opus decoder and the ASR adapter *increment* `cur_turn_seq` by one
  and forward the incoming packet, the increment being the only
  statement before the forward;
* the turn manager increments `cur_turn_seq` and enqueues one *fresh*
  `INTERRUPT` carrying its own new sequence — followed, exactly when
  its sentence buffer is non-empty, by one data packet of the new turn
  (given room for both);
* the WebRTC sink sets `cur_turn_seq := T`, resets its first-packet
  marker and turn start, and enqueues nothing. -/
theorem interruptForwarding_amended (st : StageState) (p : Packet) (now : Int)
    (c : BoundedChan)
    (_hcmd : p.command = PacketCommand.interrupt)
    (hch : st.base.outChan = Option.some c)
    (hspace : c.buf.length < c.cap) :
    (∀ prog ∈ setForwardInterruptBodies,
        (runHandler prog now st p).base.outChan =
          Option.some { c with buf := c.buf ++ [p] } ∧
        (runHandler prog now st p).base.curTurnSeq = p.turnSeq ∧
        prog.takeWhile (fun s => s ≠ HStmt.forwardIncoming) =
          [HStmt.setCurTurnSeqFromPacket]) ∧
    (∀ prog ∈ incrForwardInterruptBodies,
        (runHandler prog now st p).base.outChan =
          Option.some { c with buf := c.buf ++ [p] } ∧
        (runHandler prog now st p).base.curTurnSeq = st.base.curTurnSeq + 1 ∧
        prog.takeWhile (fun s => s ≠ HStmt.forwardIncoming) =
          [HStmt.incrTurnSeq]) ∧
    (∀ tm : TMState, tm.base.outChan = Option.some c →
        c.buf.length + 2 ≤ c.cap →
        (handleCommandInterrupt tm now).base.curTurnSeq =
          tm.base.curTurnSeq + 1 ∧
        (tm.sentenceBuffer = [] →
          (handleCommandInterrupt tm now).base.outChan =
            Option.some { c with buf := c.buf ++
              [GenInterruptPacket (tm.base.curTurnSeq + 1)] }) ∧
        (tm.sentenceBuffer ≠ [] →
          (handleCommandInterrupt tm now).base.outChan =
            Option.some { c with buf := c.buf ++
              [GenInterruptPacket (tm.base.curTurnSeq + 1),
               Packet.mk (Payload.textData tm.sentenceBuffer) 0
                 (tm.base.curTurnSeq + 1) PacketCommand.none] })) ∧
    (runHandler webrtcSinkInterruptBody now st p).base.outChan =
      st.base.outChan ∧
    (runHandler webrtcSinkInterruptBody now st p).base.curTurnSeq = p.turnSeq := by
  refine ⟨?_, ?_, ?_, ?_, ?_⟩
  · intro prog hprog
    simp only [setForwardInterruptBodies, List.mem_cons,
      List.not_mem_nil, or_false] at hprog
    rcases hprog with rfl | rfl | rfl | rfl | rfl | rfl | rfl | rfl <;>
      refine ⟨?_, ?_, by decide⟩ <;>
      simp [runHandler, opusEncoderInterruptBody, resamplerInterruptBody,
        deepSeekInterruptBody, tencentTTSInterruptBody,
        tencentTTS2InterruptBody, oggDumperInterruptBody,
        pcmDumperInterruptBody, tencentStreamTTSInterruptBody, execHStmt,
        forwardPacket, hch, trySend, hspace, ttsSwapSection_base]
  · intro prog hprog
    simp only [incrForwardInterruptBodies, List.mem_cons,
      List.not_mem_nil, or_false] at hprog
    rcases hprog with rfl | rfl <;>
      refine ⟨?_, ?_, by decide⟩ <;>
      simp [runHandler, opusDecoderInterruptBody, tencentAsrInterruptBody,
        execHStmt, forwardPacket, hch, trySend, hspace]
  · intro tm hch2 hsp2
    have hlt1 : c.buf.length < c.cap := by omega
    have hlt2 : c.buf.length + 1 < c.cap := by omega
    by_cases hbuf : tm.sentenceBuffer = []
    · refine ⟨?_, fun _ => ?_, fun hne => absurd hbuf hne⟩ <;>
        simp [handleCommandInterrupt, createNewTurn, forwardPacket, hch2,
          trySend, hlt1, hbuf]
    · refine ⟨?_, fun he => absurd he hbuf, fun _ => ?_⟩ <;>
        simp [handleCommandInterrupt, createNewTurn, forwardPacket, hch2,
          trySend, hlt1, hlt2, hbuf]
  · simp [runHandler, webrtcSinkInterruptBody, execHStmt]
  · simp [runHandler, webrtcSinkInterruptBody, execHStmt]

/-- Witness for the amended C3: a concrete stage with `cur_turn_seq =
2` and an empty capacity-4 queue handling `INTERRUPT(7)` — the
set-and-forward stages enqueue exactly the interrupt and end at
`cur_turn_seq = 7`, the increment-and-forward stages enqueue it and end
at `3`, the turn manager (buffer `"你"`) enqueues a fresh
`INTERRUPT(3)` then the buffered sentence, and the sink enqueues
nothing. -/
theorem interruptForwarding_amended_witness :
    (∀ prog ∈ setForwardInterruptBodies,
        (runHandler prog 0 sampleInterruptStage
          (GenInterruptPacket 7)).base.outChan =
          Option.some { buf := [GenInterruptPacket 7], cap := 4 } ∧
        (runHandler prog 0 sampleInterruptStage
          (GenInterruptPacket 7)).base.curTurnSeq = 7) ∧
    (∀ prog ∈ incrForwardInterruptBodies,
        (runHandler prog 0 sampleInterruptStage
          (GenInterruptPacket 7)).base.outChan =
          Option.some { buf := [GenInterruptPacket 7], cap := 4 } ∧
        (runHandler prog 0 sampleInterruptStage
          (GenInterruptPacket 7)).base.curTurnSeq = 3) ∧
    (handleCommandInterrupt sampleTurnManager 0).base.curTurnSeq = 3 ∧
    (handleCommandInterrupt sampleTurnManager 0).base.outChan =
      Option.some (BoundedChan.mk
        [GenInterruptPacket 3,
         Packet.mk (Payload.textData ['你']) 0 3 PacketCommand.none] 4) ∧
    (runHandler webrtcSinkInterruptBody 0 sampleInterruptStage
      (GenInterruptPacket 7)).base.outChan =
      Option.some { buf := [], cap := 4 } := by
  have h := interruptForwarding_amended sampleInterruptStage
    (GenInterruptPacket 7) 0 { buf := [], cap := 4 } rfl rfl (by decide)
  have htm := h.2.2.1 sampleTurnManager rfl (by decide)
  exact ⟨fun prog hp => ⟨(h.1 prog hp).1, (h.1 prog hp).2.1⟩,
    fun prog hp => ⟨(h.2.1 prog hp).1, (h.2.1 prog hp).2.1⟩,
    htm.1, htm.2.2 (by decide), h.2.2.2.1⟩

/-! ## LLM adapter history (llm.go, lines 62–283) -/

/-- A conversation-history entry (`openai.UserMessage` /
`openai.AssistantMessage`). -/
inductive ChatMessage where
  | userMsg (content : List Char)
  | assistantMsg (content : List Char)
deriving DecidableEq, Repr

/-- The eviction loop run before appending the user message
(llm.go lines 169–172, also 109–110, 288–291):
`for len(d.messages) >= d.maxMessages { d.messages = d.messages[1:] }`
— drop the oldest message while the history is at or above the cap.
(For `maxMessages = 0` the Go loop would fault on an empty slice; every
construction uses a positive cap — the default is 10.) -/
def trimHistory (maxMessages : Nat) : List ChatMessage → List ChatMessage
  | [] => []
  | m :: ms =>
      if maxMessages ≤ ms.length + 1 then trimHistory maxMessages ms
      else m :: ms

/-- `processTextStreaming`, user side (llm.go lines 168–174): evict
while at/above the cap, then append the user message. -/
def appendUserMessage (maxMessages : Nat) (msgs : List ChatMessage)
    (text : List Char) : List ChatMessage :=
  trimHistory maxMessages msgs ++ [ChatMessage.userMsg text]

/-- `processTextStreaming`, stream end (llm.go lines 272–279): a single
`if len(d.messages) >= d.maxMessages { d.messages = d.messages[1:] }`,
then append the accumulated assistant message. -/
def appendAssistantMessage (maxMessages : Nat) (msgs : List ChatMessage)
    (text : List Char) : List ChatMessage :=
  (if maxMessages ≤ msgs.length then msgs.drop 1 else msgs) ++
    [ChatMessage.assistantMsg text]

/-- The two history mutations the streaming path performs, in the order
they happen over a run: a user message ahead of each request, the
accumulated assistant message at each stream end. -/
inductive LLMHistoryOp where
  | request (userText : List Char)
  | streamEnd (fullResponse : List Char)
deriving DecidableEq, Repr

/-- The history after a sequence of mutations, starting from the empty
history `NewDeepSeek` creates (llm.go line 87). -/
def runLLMHistory (maxMessages : Nat) (ops : List LLMHistoryOp) :
    List ChatMessage :=
  ops.foldl
    (fun msgs op =>
      match op with
      | LLMHistoryOp.request t => appendUserMessage maxMessages msgs t
      | LLMHistoryOp.streamEnd t => appendAssistantMessage maxMessages msgs t)
    []

theorem trimHistory_suffix (maxMessages : Nat) (msgs : List ChatMessage) :
    trimHistory maxMessages msgs <:+ msgs := by
  induction msgs with
  | nil => exact List.suffix_refl _
  | cons m ms ih =>
      rw [trimHistory]
      split
      · exact ih.trans (List.suffix_cons m ms)
      · exact List.suffix_refl _

theorem trimHistory_length_lt (maxMessages : Nat) (hmax : 1 ≤ maxMessages)
    (msgs : List ChatMessage) :
    (trimHistory maxMessages msgs).length < maxMessages := by
  induction msgs with
  | nil => simpa [trimHistory] using hmax
  | cons m ms ih =>
      rw [trimHistory]
      split
      · exact ih
      · simp only [List.length_cons]
        omega

theorem appendUserMessage_length (maxMessages : Nat) (hmax : 1 ≤ maxMessages)
    (msgs : List ChatMessage) (t : List Char) :
    (appendUserMessage maxMessages msgs t).length ≤ maxMessages := by
  have h := trimHistory_length_lt maxMessages hmax msgs
  simp only [appendUserMessage, List.length_append, List.length_cons,
    List.length_nil]
  omega

theorem appendAssistantMessage_length (maxMessages : Nat)
    (hmax : 1 ≤ maxMessages)
    (msgs : List ChatMessage) (t : List Char)
    (hlen : msgs.length ≤ maxMessages) :
    (appendAssistantMessage maxMessages msgs t).length ≤ maxMessages := by
  rcases le_or_lt maxMessages msgs.length with h | h
  · simp only [appendAssistantMessage, if_pos h, List.length_append,
      List.length_drop, List.length_cons, List.length_nil]
    omega
  · simp only [appendAssistantMessage, if_neg (Nat.not_le.mpr h),
      List.length_append, List.length_cons, List.length_nil]
    omega

/-! ## C8 — LLM bounded history -/

/-- C8.  With a positive cap (default 10): starting from the empty
history, any sequence of request/stream-end mutations keeps the history
length at or below the cap; the pre-request eviction keeps a suffix of
the history (oldest evicted first) strictly shorter than the cap before
appending; and the stream-end append, whenever the history is at or
above the cap, drops exactly the oldest message before appending. -/
theorem llmHistoryBounded (maxMessages : Nat) (hmax : 1 ≤ maxMessages) :
    (∀ ops : List LLMHistoryOp,
       (runLLMHistory maxMessages ops).length ≤ maxMessages) ∧
    (∀ msgs : List ChatMessage,
       trimHistory maxMessages msgs <:+ msgs ∧
       (trimHistory maxMessages msgs).length < maxMessages) ∧
    (∀ (msgs : List ChatMessage) (t : List Char),
       maxMessages ≤ msgs.length →
       appendAssistantMessage maxMessages msgs t =
         msgs.drop 1 ++ [ChatMessage.assistantMsg t]) := by
  refine ⟨?_, fun msgs => ⟨trimHistory_suffix _ _, trimHistory_length_lt _ hmax _⟩,
    fun msgs t h => by simp [appendAssistantMessage, h]⟩
  intro ops
  suffices h : ∀ (start : List ChatMessage), start.length ≤ maxMessages →
      (ops.foldl
        (fun msgs op =>
          match op with
          | LLMHistoryOp.request t => appendUserMessage maxMessages msgs t
          | LLMHistoryOp.streamEnd t => appendAssistantMessage maxMessages msgs t)
        start).length ≤ maxMessages by
    exact h [] (by simp)
  induction ops with
  | nil => intro start hs; simpa [runLLMHistory] using hs
  | cons op ops ih =>
      intro start hs
      cases op with
      | request t =>
          exact ih _ (appendUserMessage_length maxMessages hmax start t)
      | streamEnd t =>
          exact ih _ (appendAssistantMessage_length maxMessages hmax start t hs)

/-- Witness for C8 at the default cap 10 and a concrete run of six
turns (six user messages interleaved with six assistant messages). -/
theorem llmHistoryBounded_witness :
    (runLLMHistory 10
      (List.replicate 6 (LLMHistoryOp.request ['你']) ++
       List.replicate 6 (LLMHistoryOp.streamEnd ['好']))).length ≤ 10 := by
  exact (llmHistoryBounded 10 (by decide)).1 _

/-! ## Resampler (part_007) -/

/-- Little-endian reconstruction of one int16 from two bytes
(part_007 lines 92–94, 100–103, 196–199):
`int16(b0) | int16(b1) << 8` — the shift wraps in two's complement, so
the pair reads as a signed 16-bit value.  Byte values are below 256 by
Go's `byte` type; `% 256` makes that explicit. -/
def i16FromBytes (b0 b1 : Nat) : Int :=
  let v := (b0 % 256) + 256 * (b1 % 256)
  if v < 32768 then (v : Int) else (v : Int) - 65536

/-- Byte pairs to int16 samples (the conversion loops of part_007).
The Go loops index pairs `(i, i+1)` over `len/2` outputs; PCM byte
streams always have even length (an odd tail byte would make the Go
loop fault on `data[i+1]`). -/
def bytesToPCM : List Nat → List Int
  | b0 :: b1 :: rest => i16FromBytes b0 b1 :: bytesToPCM rest
  | _ => []

/-- Int16 samples to little-endian bytes (part_007 lines 170–174):
`byte(sample)` and `byte(sample >> 8)` — low byte is the value mod 256,
the arithmetic right shift is flooring division by 256. -/
def pcmToBytes (xs : List Int) : List Nat :=
  xs.flatMap (fun s => [(s % 256).toNat, ((Int.fdiv s 256) % 256).toNat])

/-- One stereo pair mixed to mono (part_007 lines 143–156).  The Go
code computes `(L/32768.0 + R/32768.0) * 0.5 * 32768.0` in `float64`,
clips to the int16 range, and truncates toward zero with `int16(...)`.
All intermediate `float64` values here are dyadic rationals of
magnitude below 2^17 with granularity 2^-16, hence exact in `float64`,
so the computation is exactly `(L+R)/2` clipped and truncated toward
zero (`Int.div` truncates toward zero). -/
def mixStereoPair (l r : Int) : Int :=
  if l + r > 65534 then 32767
  else if l + r < -65536 then -32768
  else Int.tdiv (l + r) 2

/-- The stereo-to-mono branch of the channel conversion (part_007
lines 136–157): `processedData` starts as `len/2` zeros; the loop
visits `i = 0, chIn, 2*chIn, …` while `i + 1 < len` (the `break` on
`i+1 >= len` equals filtering, as later indices only grow) and writes
the mixed pair at `i/2`.  `chIn ≥ 1` in every construction (the Go
loop would not terminate for `chIn = 0`). -/
def stereoToMonoGo (chIn : Nat) (xs : List Int) : List Int :=
  ((List.range xs.length).filter
      (fun i => i % chIn = 0 && i + 1 < xs.length)).foldl
    (fun out i => out.set (i / 2) (mixStereoPair (xs.getD i 0) (xs.getD (i + 1) 0)))
    (List.replicate (xs.length / 2) (0 : Int))

/-- Channel conversion (part_007 lines 135–167): stereo→mono mix when
`chIn > chOut`, duplication when `chIn < chOut`, copy when equal. -/
def convertChannels (chIn chOut : Nat) (xs : List Int) : List Int :=
  if chIn > chOut then stereoToMonoGo chIn xs
  else if chIn < chOut then xs.flatMap (fun x => [x, x])
  else xs

/-- The state of a `Resampler` (part_007 lines 16–27): the base
component, the int16 accumulation buffer, the four construction
parameters and the derived `minSamples`.  The external `zaf/resample`
rate converter object is not state here: its action on the
channel-converted byte stream is passed to `resamplerProcessPacket` as
the function `lib`. -/
structure ResamplerState where
  base : BaseState
  inputBuffer : List Int
  channelsIn : Nat
  channelsOut : Nat
  sampleRateIn : Nat
  sampleRateOut : Nat
  minSamples : Nat
deriving Repr

/-- `NewResampler` — part_007 lines 29–68:
`minSamples := (sampleRateIn * channelsIn * 20) / 1000` in Go integer
(flooring) division; the base component gets a fresh outbound channel
of capacity 100 (`NewBaseComponent(name, 100)`). -/
def NewResampler (sampleRateIn sampleRateOut channelsIn channelsOut : Nat) :
    ResamplerState :=
  { base := { curTurnSeq := 0, seq := 0, ignoreTurn := false,
              processedCount := 0, droppedCount := 0,
              outChan := Option.some { buf := [], cap := 100 } },
    inputBuffer := [],
    channelsIn := channelsIn, channelsOut := channelsOut,
    sampleRateIn := sampleRateIn, sampleRateOut := sampleRateOut,
    minSamples := sampleRateIn * channelsIn * 20 / 1000 }

/-- The common tail of `Resampler.processPacket` (part_007 lines
109–221) once the payload has been converted to int16 samples `d`:
empty input is rejected (warning only); samples are appended to the
accumulation buffer; below `minSamples` nothing more happens; otherwise
the largest multiple of `minSamples` is taken, channel-converted,
pushed through the external rate converter `lib` (as little-endian
bytes), and the result is forwarded as one PCM packet stamped with the
stage's current `seq` and `cur_turn_seq`, while the untaken remainder
becomes the new accumulation buffer.  (`lib` stands for the
`resampler.Write`/buffer-read round trip through `zaf/resample`, which
is outside this repository; its error paths are not modelled.) -/
def resamplerProcessData (lib : List Nat → List Nat) (st : ResamplerState)
    (d : List Int) : ResamplerState :=
  if d.length = 0 then st
  else
    let ib := st.inputBuffer ++ d
    if ib.length < st.minSamples then { st with inputBuffer := ib }
    else
      let k := ib.length / st.minSamples * st.minSamples
      let conv := convertChannels st.channelsIn st.channelsOut (ib.take k)
      let cur := bytesToPCM (lib (pcmToBytes conv))
      let outPkt : Packet :=
        { data := Payload.pcm cur, seq := st.base.seq,
          turnSeq := st.base.curTurnSeq, command := PacketCommand.none }
      { st with inputBuffer := ib.drop k,
                base := forwardPacket st.base outPkt }

/-- `Resampler.processPacket` — part_007 lines 78–221: a packet of an
old turn clears the accumulation buffer and is skipped; audio-frame and
raw-byte payloads are read as little-endian int16 pairs, PCM payloads
are taken as-is, anything else is an unsupported payload
(`HandleUnsupportedData`, state otherwise untouched). -/
def resamplerProcessPacket (lib : List Nat → List Nat) (st : ResamplerState)
    (p : Packet) : ResamplerState :=
  if p.turnSeq < st.base.curTurnSeq then { st with inputBuffer := [] }
  else
    match p.data with
    | Payload.audio payload _ => resamplerProcessData lib st (bytesToPCM payload)
    | Payload.pcm d => resamplerProcessData lib st d
    | Payload.bytesData bs => resamplerProcessData lib st (bytesToPCM bs)
    | _ => st

/-! ## C9 — resampler input accumulation -/

/-- Counterexample to C9's `min_samples` formula: for
`Resampler(8001, 8000, 1, 1)` the code computes
`minSamples = 8001 * 1 * 20 / 1000 = 160` in integer division, which is
*not* `sample_rate_in × channels_in × 0.020 = 160.02`. -/
theorem resamplerMinSamples_notExact :
    (NewResampler 8001 8000 1 1).minSamples = 160 ∧
    ¬ (((NewResampler 8001 8000 1 1).minSamples : ℚ) =
        (8001 : ℚ) * 1 * (20 / 1000)) := by
  constructor
  · rfl
  · intro h
    rw [show (NewResampler 8001 8000 1 1).minSamples = 160 from rfl] at h
    norm_num at h

/-- C9, amended.  For every `Resampler(rate_in, rate_out, ch_in,
ch_out)`, `min_samples = ⌊rate_in × ch_in × 20 / 1000⌋` (Go integer
division; equal to `rate_in × ch_in × 0.020` exactly when that product
is an integer, as at every standard rate).  For a current-turn PCM
packet with non-empty samples `d` and positive `min_samples`: the
samples are appended to the accumulation buffer; while the buffer holds
fewer than `min_samples` samples nothing is emitted and the whole
buffer is retained; once it holds at least `min_samples`, exactly
`k = ⌊len/min⌋·min` samples — the largest multiple of `min_samples` not
exceeding the buffer — are taken and processed into a single forwarded
packet, and the remainder (shorter than `min_samples`) is retained. -/
theorem resamplerAccumulation (lib : List Nat → List Nat)
    (st : ResamplerState) (p : Packet) (d : List Int)
    (hmin : 0 < st.minSamples)
    (hseq : ¬ p.turnSeq < st.base.curTurnSeq)
    (hdata : p.data = Payload.pcm d)
    (hd : d ≠ []) :
    (∀ rIn rOut cIn cOut : Nat,
       (NewResampler rIn rOut cIn cOut).minSamples = rIn * cIn * 20 / 1000) ∧
    ((st.inputBuffer ++ d).length < st.minSamples →
       resamplerProcessPacket lib st p =
         { st with inputBuffer := st.inputBuffer ++ d }) ∧
    (st.minSamples ≤ (st.inputBuffer ++ d).length →
       (st.minSamples ∣
          (st.inputBuffer ++ d).length / st.minSamples * st.minSamples) ∧
       (st.inputBuffer ++ d).length / st.minSamples * st.minSamples ≤
          (st.inputBuffer ++ d).length ∧
       (st.inputBuffer ++ d).length -
          (st.inputBuffer ++ d).length / st.minSamples * st.minSamples <
          st.minSamples ∧
       resamplerProcessPacket lib st p =
         { st with
             inputBuffer := (st.inputBuffer ++ d).drop
               ((st.inputBuffer ++ d).length / st.minSamples * st.minSamples),
             base := forwardPacket st.base
               (Packet.mk
                 (Payload.pcm (bytesToPCM (lib (pcmToBytes
                   (convertChannels st.channelsIn st.channelsOut
                     ((st.inputBuffer ++ d).take
                       ((st.inputBuffer ++ d).length / st.minSamples *
                         st.minSamples)))))))
                 st.base.seq st.base.curTurnSeq PacketCommand.none) }) := by
  have hdne : d.length ≠ 0 := fun h => hd (List.eq_nil_of_length_eq_zero h)
  refine ⟨fun _ _ _ _ => rfl, ?_, ?_⟩
  · intro hlt
    have hlt2 : st.inputBuffer.length + d.length < st.minSamples := by
      simpa using hlt
    simp [resamplerProcessPacket, hseq, hdata, resamplerProcessData, hdne, hlt2]
  · intro hge
    have hge2 : st.minSamples ≤ st.inputBuffer.length + d.length := by
      simpa using hge
    have hnot2 : ¬ st.inputBuffer.length + d.length < st.minSamples :=
      Nat.not_lt.mpr hge2
    refine ⟨dvd_mul_left _ _, Nat.div_mul_le_self _ _, ?_, ?_⟩
    · have hmod :=
        Nat.mod_add_div' (st.inputBuffer.length + d.length) st.minSamples
      have hlt := Nat.mod_lt (st.inputBuffer.length + d.length) hmin
      simp only [List.length_append]
      omega
    · simp [resamplerProcessPacket, hseq, hdata, resamplerProcessData, hdne,
        hnot2]

/-- Witness for C9 at a concrete resampler `Resampler(100, 100, 1, 1)`
(`min_samples = 2`) whose buffer already holds `[5]`, fed a PCM packet
with samples `[6, 7]` through the identity rate converter: the three
accumulated samples yield one processed chunk `[5, 6]` (the largest
multiple of 2) forwarded as a packet, with `[7]` retained. -/
theorem resamplerAccumulation_witness :
    resamplerProcessPacket (fun bs => bs)
      { NewResampler 100 100 1 1 with inputBuffer := [5] }
      { data := Payload.pcm [6, 7], seq := 0, turnSeq := 0,
        command := PacketCommand.none } =
      { NewResampler 100 100 1 1 with
          inputBuffer := [7],
          base := { curTurnSeq := 0, seq := 0, ignoreTurn := false,
                    processedCount := 0, droppedCount := 0,
                    outChan := Option.some
                      { buf := [Packet.mk (Payload.pcm [5, 6]) 0 0
                          PacketCommand.none], cap := 100 } } } := by
  have h := (resamplerAccumulation (fun bs => bs)
    { NewResampler 100 100 1 1 with inputBuffer := [5] }
    { data := Payload.pcm [6, 7], seq := 0, turnSeq := 0,
      command := PacketCommand.none }
    [6, 7] (by decide) (by decide) rfl (by decide)).2.2 (by decide)
  exact h.2.2.2

end Streamlink
